import Mathlib

/-!
Verification of the privateGPT settings schema (`private_gpt/settings/settings.py`).

The source declares a tree of pydantic `BaseModel` classes and a root
`Settings` aggregate, constructed once from the deep-merged raw mapping of
the active configuration profiles.  We shallowly embed the raw data as a
JSON-like `RawValue` tree, and each pydantic class as a Lean structure
together with a validator translated field by field from its declaration:
required fields fail with a path-qualified "Field required" error, defaulted
fields fall back to the declared default (or default factory), and
`Literal[...]` fields reject values outside the closed set.  Validators
accumulate errors applicatively, mirroring pydantic's collect-all
`ValidationError`, and the whole binding either yields a `Settings` value or
a non-empty error list — never a partial object.
-/

set_option autoImplicit false

namespace PrivateGpt

/-- A raw, untyped configuration value: the shallow embedding of the data a
profile layer contributes before validation (a nested mapping of string keys
to scalars, sequences and sub-mappings). -/
inductive RawValue where
  | str (s : String)
  | int (n : Int)
  | bool (b : Bool)
  | list (xs : List RawValue)
  | map (kvs : List (String × RawValue))
  | null
  deriving Repr, Inhabited

/-- A single structured validation error: the fully qualified field path
(e.g. `["llm", "mode"]`) and a message describing the violation, as in a
pydantic `ValidationError` entry. -/
structure FieldError where
  loc : List String
  msg : String
  deriving Repr, DecidableEq

/-- Validation result: either a value or the non-empty list of collected
field errors. -/
abbrev VResult (α : Type) := Except (List FieldError) α

/-- Applicative combination of validation results that accumulates errors
from both sides, mirroring pydantic's collection of every field violation
into one `ValidationError`. -/
def vApp {α β : Type} : VResult (α → β) → VResult α → VResult β
  | Except.ok f, Except.ok a => Except.ok (f a)
  | Except.error e, Except.ok _ => Except.error e
  | Except.ok _, Except.error e => Except.error e
  | Except.error e₁, Except.error e₂ => Except.error (e₁ ++ e₂)

/-- First value bound to key `k` in a raw mapping (pydantic reads the merged
`dict`, whose keys are unique; we take the first binding). -/
def lookupKey (k : String) : List (String × RawValue) → Option RawValue
  | [] => none
  | (k', v) :: rest => if k' = k then some v else lookupKey k rest

/-- Error message for a missing required field (pydantic v2 wording). -/
def requiredMsg : String := "Field required"

/-- Bind a required `str` field. -/
def bindStr (loc : List String) : Option RawValue → VResult String
  | some (RawValue.str s) => Except.ok s
  | some _ => Except.error [⟨loc, "Input should be a valid string"⟩]
  | none => Except.error [⟨loc, requiredMsg⟩]

/-- Bind a `str` field with a declared default, applied when the key is
absent. -/
def bindStrD (d : String) (loc : List String) : Option RawValue → VResult String
  | none => Except.ok d
  | some v => bindStr loc (some v)

/-- Bind a required `int` field; pydantic's lax mode also accepts a numeric
string. -/
def bindInt (loc : List String) : Option RawValue → VResult Int
  | some (RawValue.int n) => Except.ok n
  | some (RawValue.str s) =>
    match s.toInt? with
    | some n => Except.ok n
    | none => Except.error [⟨loc, "Input should be a valid integer"⟩]
  | some _ => Except.error [⟨loc, "Input should be a valid integer"⟩]
  | none => Except.error [⟨loc, requiredMsg⟩]

/-- Bind an `int` field with a declared default. -/
def bindIntD (d : Int) (loc : List String) : Option RawValue → VResult Int
  | none => Except.ok d
  | some v => bindInt loc (some v)

/-- Bind a required `bool` field; pydantic's lax mode also accepts the usual
string and 0/1 spellings. -/
def bindBool (loc : List String) : Option RawValue → VResult Bool
  | some (RawValue.bool b) => Except.ok b
  | some (RawValue.str s) =>
    if s = "true" ∨ s = "True" ∨ s = "1" then Except.ok true
    else if s = "false" ∨ s = "False" ∨ s = "0" then Except.ok false
    else Except.error [⟨loc, "Input should be a valid boolean"⟩]
  | some (RawValue.int n) =>
    if n = 1 then Except.ok true
    else if n = 0 then Except.ok false
    else Except.error [⟨loc, "Input should be a valid boolean"⟩]
  | some _ => Except.error [⟨loc, "Input should be a valid boolean"⟩]
  | none => Except.error [⟨loc, requiredMsg⟩]

/-- Bind a `bool` field with a declared default. -/
def bindBoolD (d : Bool) (loc : List String) : Option RawValue → VResult Bool
  | none => Except.ok d
  | some v => bindBool loc (some v)

/-- The descriptive message a `Literal[...]` field produces for a value
outside its closed set, naming every allowed literal (pydantic v2 wording). -/
def literalMsg (allowed : List String) : String :=
  "Input should be " ++ String.intercalate " or " (allowed.map fun a => "'" ++ a ++ "'")

/-- Bind a required `Literal[...]` field: only a string drawn from the
declared closed set is accepted. -/
def bindLiteral (allowed : List String) (loc : List String) :
    Option RawValue → VResult String
  | some (RawValue.str s) =>
    if s ∈ allowed then Except.ok s
    else Except.error [⟨loc, literalMsg allowed⟩]
  | some _ => Except.error [⟨loc, literalMsg allowed⟩]
  | none => Except.error [⟨loc, requiredMsg⟩]

/-- Bind a `Literal[...]` field with a declared default. -/
def bindLiteralD (allowed : List String) (d : String) (loc : List String) :
    Option RawValue → VResult String
  | none => Except.ok d
  | some v => bindLiteral allowed loc (some v)

/-- Bind the elements of a `list[str]` value, qualifying errors with the
element index. -/
def bindStrElems (loc : List String) : Nat → List RawValue → VResult (List String)
  | _, [] => Except.ok []
  | i, v :: rest =>
    vApp (vApp (Except.ok List.cons) (bindStr (loc ++ [toString i]) (some v)))
      (bindStrElems loc (i + 1) rest)

/-- Bind a `list[str]` field value. -/
def bindStrList (loc : List String) : RawValue → VResult (List String)
  | RawValue.list xs => bindStrElems loc 0 xs
  | _ => Except.error [⟨loc, "Input should be a valid list"⟩]

/-- Bind a `list[str]` field with a declared default list. -/
def bindStrListD (d : List String) (loc : List String) :
    Option RawValue → VResult (List String)
  | none => Except.ok d
  | some v => bindStrList loc v

/-- Bind a `list[str]` field declared with `default=None`: pydantic does not
validate the default, so an absent key binds `None` even though the declared
type is `list[str]`; a present value must still be a list of strings. -/
def bindStrListNoneD (loc : List String) : Option RawValue → VResult (Option (List String))
  | none => Except.ok none
  | some v => Except.map some (bindStrList loc v)

/-- Bind an `str | None` field with a declared default: absent takes the
default, an explicit null binds `None`. -/
def bindStrOptD (d : Option String) (loc : List String) :
    Option RawValue → VResult (Option String)
  | none => Except.ok d
  | some RawValue.null => Except.ok none
  | some v => Except.map some (bindStr loc (some v))

/-- Bind an `int | None` field with a declared default. -/
def bindIntOptD (d : Option Int) (loc : List String) :
    Option RawValue → VResult (Option Int)
  | none => Except.ok d
  | some RawValue.null => Except.ok none
  | some v => Except.map some (bindInt loc (some v))

/-- Bind a `bool | None` field with a declared default. -/
def bindBoolOptD (d : Option Bool) (loc : List String) :
    Option RawValue → VResult (Option Bool)
  | none => Except.ok d
  | some RawValue.null => Except.ok none
  | some v => Except.map some (bindBool loc (some v))

/-- Bind a `float | None` field with a declared default; rationals stand in
for Python floats (the raw layers of interest carry integer literals). -/
def bindFloatOptD (d : Option Rat) (loc : List String) :
    Option RawValue → VResult (Option Rat)
  | none => Except.ok d
  | some RawValue.null => Except.ok none
  | some (RawValue.int n) => Except.ok (some (n : Rat))
  | some _ => Except.error [⟨loc, "Input should be a valid number"⟩]

/-- Bind a nested-model field from a raw value: only a mapping is accepted,
and its keys are validated by the sub-model's own validator. -/
def bindModel {α : Type} (validate : List String → List (String × RawValue) → VResult α)
    (loc : List String) : RawValue → VResult α
  | RawValue.map kvs => validate loc kvs
  | _ => Except.error [⟨loc, "Input should be a valid dictionary"⟩]

/-- Bind a required nested-model field. -/
def bindModelReq {α : Type} (validate : List String → List (String × RawValue) → VResult α)
    (loc : List String) : Option RawValue → VResult α
  | none => Except.error [⟨loc, requiredMsg⟩]
  | some v => bindModel validate loc v

/-- Bind a nested-model field with a declared default (or default factory):
pydantic calls the factory, or `smart_deepcopy`s the literal default, when the
key is absent. -/
def bindModelD {α : Type} (validate : List String → List (String × RawValue) → VResult α)
    (d : α) (loc : List String) : Option RawValue → VResult α
  | none => Except.ok d
  | some v => bindModel validate loc v

/-! ## The settings schema (translated class by class from `settings.py`) -/

/-- `CorsSettings` (settings.py:8-42). -/
structure CorsSettings where
  enabled : Bool
  allow_credentials : Bool
  allow_origins : List String
  allow_origin_regex : Option (List String)
  allow_methods : List String
  allow_headers : List String
  deriving Repr, DecidableEq

/-- Validator for `CorsSettings`: `enabled`, `allow_credentials`,
`allow_origins`, `allow_methods`, `allow_headers` are defaulted;
`allow_origin_regex` is declared `list[str]` but defaulted to `None`. -/
def CorsSettings.validate (loc : List String) (kvs : List (String × RawValue)) :
    VResult CorsSettings :=
  vApp (vApp (vApp (vApp (vApp (vApp (Except.ok CorsSettings.mk)
    (bindBoolD false (loc ++ ["enabled"]) (lookupKey "enabled" kvs)))
    (bindBoolD false (loc ++ ["allow_credentials"]) (lookupKey "allow_credentials" kvs)))
    (bindStrListD [] (loc ++ ["allow_origins"]) (lookupKey "allow_origins" kvs)))
    (bindStrListNoneD (loc ++ ["allow_origin_regex"]) (lookupKey "allow_origin_regex" kvs)))
    (bindStrListD ["GET"] (loc ++ ["allow_methods"]) (lookupKey "allow_methods" kvs)))
    (bindStrListD [] (loc ++ ["allow_headers"]) (lookupKey "allow_headers" kvs))

/-- `BasicAuthSettings` (settings.py:45-59): `enabled` defaults to `False`,
`secret` is required. -/
structure BasicAuthSettings where
  enabled : Bool
  secret : String
  deriving Repr, DecidableEq

/-- Validator for `BasicAuthSettings`. -/
def BasicAuthSettings.validate (loc : List String) (kvs : List (String × RawValue)) :
    VResult BasicAuthSettings :=
  vApp (vApp (Except.ok BasicAuthSettings.mk)
    (bindBoolD false (loc ++ ["enabled"]) (lookupKey "enabled" kvs)))
    (bindStr (loc ++ ["secret"]) (lookupKey "secret" kvs))

/-- `JWTAuthSettings` (settings.py:62-83): `jwks_url` is required, the rest
are defaulted. -/
structure JWTAuthSettings where
  enabled : Bool
  jwks_url : String
  ingest_claim : String
  user_id_claim : String
  audience : String
  deriving Repr, DecidableEq

/-- Validator for `JWTAuthSettings`. -/
def JWTAuthSettings.validate (loc : List String) (kvs : List (String × RawValue)) :
    VResult JWTAuthSettings :=
  vApp (vApp (vApp (vApp (vApp (Except.ok JWTAuthSettings.mk)
    (bindBoolD false (loc ++ ["enabled"]) (lookupKey "enabled" kvs)))
    (bindStr (loc ++ ["jwks_url"]) (lookupKey "jwks_url" kvs)))
    (bindStrD "ingest" (loc ++ ["ingest_claim"]) (lookupKey "ingest_claim" kvs)))
    (bindStrD "sub" (loc ++ ["user_id_claim"]) (lookupKey "user_id_claim" kvs)))
    (bindStrD "privateGPT" (loc ++ ["audience"]) (lookupKey "audience" kvs))

/-- The class-level default of `ServerSettings.cors`: the single literal
`CorsSettings(enabled=False)` instance declared at settings.py:92, whose
remaining fields take their own declared defaults. -/
def defaultCors : CorsSettings :=
  { enabled := false, allow_credentials := false, allow_origins := [],
    allow_origin_regex := none, allow_methods := ["GET"], allow_headers := [] }

/-- The value built by the `basic_auth` default factory
`lambda: BasicAuthSettings(enabled=False, secret="secret-key")`
(settings.py:96). -/
def defaultBasicAuth : BasicAuthSettings :=
  { enabled := false, secret := "secret-key" }

/-- The value built by the `jwt_auth` default factory (settings.py:101-103). -/
def defaultJwtAuth : JWTAuthSettings :=
  { enabled := false, jwks_url := "https://example.com/.well-known/jwks.json",
    ingest_claim := "ingest", user_id_claim := "sub", audience := "privateGPT" }

/-- `ServerSettings` (settings.py:86-104): `env_name` and `port` are required;
`cors`, `basic_auth` and `jwt_auth` are defaulted sub-models. -/
structure ServerSettings where
  env_name : String
  port : Int
  cors : CorsSettings
  basic_auth : BasicAuthSettings
  jwt_auth : JWTAuthSettings
  deriving Repr, DecidableEq

/-- Validator for `ServerSettings`. -/
def ServerSettings.validate (loc : List String) (kvs : List (String × RawValue)) :
    VResult ServerSettings :=
  vApp (vApp (vApp (vApp (vApp (Except.ok ServerSettings.mk)
    (bindStr (loc ++ ["env_name"]) (lookupKey "env_name" kvs)))
    (bindInt (loc ++ ["port"]) (lookupKey "port" kvs)))
    (bindModelD CorsSettings.validate defaultCors (loc ++ ["cors"]) (lookupKey "cors" kvs)))
    (bindModelD BasicAuthSettings.validate defaultBasicAuth (loc ++ ["basic_auth"])
      (lookupKey "basic_auth" kvs)))
    (bindModelD JWTAuthSettings.validate defaultJwtAuth (loc ++ ["jwt_auth"])
      (lookupKey "jwt_auth" kvs))

/-- `DataSettings` (settings.py:107-111): `local_data_folder` is required. -/
structure DataSettings where
  local_data_folder : String
  deriving Repr, DecidableEq

/-- Validator for `DataSettings`. -/
def DataSettings.validate (loc : List String) (kvs : List (String × RawValue)) :
    VResult DataSettings :=
  Except.map DataSettings.mk
    (bindStr (loc ++ ["local_data_folder"]) (lookupKey "local_data_folder" kvs))

/-- The closed literal set of `LLMSettings.mode` (settings.py:115). -/
def llmModes : List String := ["local", "openai", "sagemaker", "mock"]

/-- `LLMSettings` (settings.py:114-115): a single required
`Literal["local", "openai", "sagemaker", "mock"]` discriminator. -/
structure LLMSettings where
  mode : String
  deriving Repr, DecidableEq

/-- Validator for `LLMSettings`. -/
def LLMSettings.validate (loc : List String) (kvs : List (String × RawValue)) :
    VResult LLMSettings :=
  Except.map LLMSettings.mk
    (bindLiteral llmModes (loc ++ ["mode"]) (lookupKey "mode" kvs))

/-- `VectorstoreSettings` (settings.py:118-122): required
`Literal["chroma", "qdrant"]` discriminator plus defaulted collection name. -/
structure VectorstoreSettings where
  database : String
  collection_name : String
  deriving Repr, DecidableEq

/-- Validator for `VectorstoreSettings`. -/
def VectorstoreSettings.validate (loc : List String) (kvs : List (String × RawValue)) :
    VResult VectorstoreSettings :=
  vApp (vApp (Except.ok VectorstoreSettings.mk)
    (bindLiteral ["chroma", "qdrant"] (loc ++ ["database"]) (lookupKey "database" kvs)))
    (bindStrD "privateGPT" (loc ++ ["collection_name"]) (lookupKey "collection_name" kvs))

/-- `RedisSettings` (settings.py:125-127): both fields defaulted. -/
structure RedisSettings where
  host : String
  port : Int
  deriving Repr, DecidableEq

/-- Validator for `RedisSettings`. -/
def RedisSettings.validate (loc : List String) (kvs : List (String × RawValue)) :
    VResult RedisSettings :=
  vApp (vApp (Except.ok RedisSettings.mk)
    (bindStrD "redis" (loc ++ ["host"]) (lookupKey "host" kvs)))
    (bindIntD 6379 (loc ++ ["port"]) (lookupKey "port" kvs))

/-- `DynamoDBSettings` (settings.py:130-131): `table_name` defaulted. -/
structure DynamoDBSettings where
  table_name : String
  deriving Repr, DecidableEq

/-- Validator for `DynamoDBSettings`. -/
def DynamoDBSettings.validate (loc : List String) (kvs : List (String × RawValue)) :
    VResult DynamoDBSettings :=
  Except.map DynamoDBSettings.mk
    (bindStrD "dummy_table" (loc ++ ["table_name"]) (lookupKey "table_name" kvs))

/-- The value built by the document/index-store `redis` default factory
`lambda: RedisSettings(host="redis", port=6379)` (settings.py:142, 157). -/
def defaultRedis : RedisSettings := { host := "redis", port := 6379 }

/-- The value built by the document/index-store `dynamodb` default factory
`lambda: DynamoDBSettings(table_name="dummy_table")` (settings.py:146, 161). -/
def defaultDynamoDB : DynamoDBSettings := { table_name := "dummy_table" }

/-- The closed literal set of the document/index-store discriminator
(settings.py:135, 151). -/
def storeDatabases : List String := ["disk", "redis", "dynamodb"]

/-- `DocumentstoreSettings` (settings.py:134-147): discriminator and every
other field defaulted.  The source field `namespace` is spelled `namespace_`
here because `namespace` is a Lean keyword. -/
structure DocumentstoreSettings where
  database : String
  namespace_ : String
  redis : RedisSettings
  dynamodb : DynamoDBSettings
  deriving Repr, DecidableEq

/-- Validator for `DocumentstoreSettings`: note the `database` discriminator
carries `Field(default="disk")`. -/
def DocumentstoreSettings.validate (loc : List String) (kvs : List (String × RawValue)) :
    VResult DocumentstoreSettings :=
  vApp (vApp (vApp (vApp (Except.ok DocumentstoreSettings.mk)
    (bindLiteralD storeDatabases "disk" (loc ++ ["database"]) (lookupKey "database" kvs)))
    (bindStrD "private_gpt_documents" (loc ++ ["namespace"]) (lookupKey "namespace" kvs)))
    (bindModelD RedisSettings.validate defaultRedis (loc ++ ["redis"]) (lookupKey "redis" kvs)))
    (bindModelD DynamoDBSettings.validate defaultDynamoDB (loc ++ ["dynamodb"])
      (lookupKey "dynamodb" kvs))

/-- `IndexstoreSettings` (settings.py:150-162): same shape as the document
store with namespace default `"private_gpt_index"`; `namespace` is again
spelled `namespace_`. -/
structure IndexstoreSettings where
  database : String
  namespace_ : String
  redis : RedisSettings
  dynamodb : DynamoDBSettings
  deriving Repr, DecidableEq

/-- Validator for `IndexstoreSettings`. -/
def IndexstoreSettings.validate (loc : List String) (kvs : List (String × RawValue)) :
    VResult IndexstoreSettings :=
  vApp (vApp (vApp (vApp (Except.ok IndexstoreSettings.mk)
    (bindLiteralD storeDatabases "disk" (loc ++ ["database"]) (lookupKey "database" kvs)))
    (bindStrD "private_gpt_index" (loc ++ ["namespace"]) (lookupKey "namespace" kvs)))
    (bindModelD RedisSettings.validate defaultRedis (loc ++ ["redis"]) (lookupKey "redis" kvs)))
    (bindModelD DynamoDBSettings.validate defaultDynamoDB (loc ++ ["dynamodb"])
      (lookupKey "dynamodb" kvs))

/-- `LocalSettings` (settings.py:165-168): all three fields required. -/
structure LocalSettings where
  llm_hf_repo_id : String
  llm_hf_model_file : String
  embedding_hf_model_name : String
  deriving Repr, DecidableEq

/-- Validator for `LocalSettings`. -/
def LocalSettings.validate (loc : List String) (kvs : List (String × RawValue)) :
    VResult LocalSettings :=
  vApp (vApp (vApp (Except.ok LocalSettings.mk)
    (bindStr (loc ++ ["llm_hf_repo_id"]) (lookupKey "llm_hf_repo_id" kvs)))
    (bindStr (loc ++ ["llm_hf_model_file"]) (lookupKey "llm_hf_model_file" kvs)))
    (bindStr (loc ++ ["embedding_hf_model_name"]) (lookupKey "embedding_hf_model_name" kvs))

/-- `SagemakerSettings` (settings.py:171-173): both fields required. -/
structure SagemakerSettings where
  llm_endpoint_name : String
  embedding_endpoint_name : String
  deriving Repr, DecidableEq

/-- Validator for `SagemakerSettings`. -/
def SagemakerSettings.validate (loc : List String) (kvs : List (String × RawValue)) :
    VResult SagemakerSettings :=
  vApp (vApp (Except.ok SagemakerSettings.mk)
    (bindStr (loc ++ ["llm_endpoint_name"]) (lookupKey "llm_endpoint_name" kvs)))
    (bindStr (loc ++ ["embedding_endpoint_name"]) (lookupKey "embedding_endpoint_name" kvs))

/-- `OpenAISettings` (settings.py:176-177): `api_key` required. -/
structure OpenAISettings where
  api_key : String
  deriving Repr, DecidableEq

/-- Validator for `OpenAISettings`. -/
def OpenAISettings.validate (loc : List String) (kvs : List (String × RawValue)) :
    VResult OpenAISettings :=
  Except.map OpenAISettings.mk (bindStr (loc ++ ["api_key"]) (lookupKey "api_key" kvs))

/-- `UISettings` (settings.py:180-182): both fields required. -/
structure UISettings where
  enabled : Bool
  path : String
  deriving Repr, DecidableEq

/-- Validator for `UISettings`. -/
def UISettings.validate (loc : List String) (kvs : List (String × RawValue)) :
    VResult UISettings :=
  vApp (vApp (Except.ok UISettings.mk)
    (bindBool (loc ++ ["enabled"]) (lookupKey "enabled" kvs)))
    (bindStr (loc ++ ["path"]) (lookupKey "path" kvs))

/-- `QdrantSettings` (settings.py:185-236): every field is `... | None` with a
declared default — `port` 6333, `grpc_port` 6334, `prefer_grpc` `False`,
`force_disable_check_same_thread` `True`, everything else `None`.  The source
field `prefix` is spelled `prefix_` here because `prefix` is a Lean keyword. -/
structure QdrantSettings where
  location : Option String
  url : Option String
  port : Option Int
  grpc_port : Option Int
  prefer_grpc : Option Bool
  https : Option Bool
  api_key : Option String
  prefix_ : Option String
  timeout : Option Rat
  host : Option String
  path : Option String
  force_disable_check_same_thread : Option Bool
  deriving Repr, DecidableEq

/-- Validator for `QdrantSettings`. -/
def QdrantSettings.validate (loc : List String) (kvs : List (String × RawValue)) :
    VResult QdrantSettings :=
  vApp (vApp (vApp (vApp (vApp (vApp (vApp (vApp (vApp (vApp (vApp (vApp
    (Except.ok QdrantSettings.mk)
    (bindStrOptD none (loc ++ ["location"]) (lookupKey "location" kvs)))
    (bindStrOptD none (loc ++ ["url"]) (lookupKey "url" kvs)))
    (bindIntOptD (some 6333) (loc ++ ["port"]) (lookupKey "port" kvs)))
    (bindIntOptD (some 6334) (loc ++ ["grpc_port"]) (lookupKey "grpc_port" kvs)))
    (bindBoolOptD (some false) (loc ++ ["prefer_grpc"]) (lookupKey "prefer_grpc" kvs)))
    (bindBoolOptD none (loc ++ ["https"]) (lookupKey "https" kvs)))
    (bindStrOptD none (loc ++ ["api_key"]) (lookupKey "api_key" kvs)))
    (bindStrOptD none (loc ++ ["prefix"]) (lookupKey "prefix" kvs)))
    (bindFloatOptD none (loc ++ ["timeout"]) (lookupKey "timeout" kvs)))
    (bindStrOptD none (loc ++ ["host"]) (lookupKey "host" kvs)))
    (bindStrOptD none (loc ++ ["path"]) (lookupKey "path" kvs)))
    (bindBoolOptD (some true) (loc ++ ["force_disable_check_same_thread"])
      (lookupKey "force_disable_check_same_thread" kvs))

/-- The `QdrantSettings` value bound from an empty raw mapping: every field
at its declared default. -/
def defaultQdrant : QdrantSettings :=
  { location := none, url := none, port := some 6333, grpc_port := some 6334,
    prefer_grpc := some false, https := none, api_key := none, prefix_ := none,
    timeout := none, host := none, path := none,
    force_disable_check_same_thread := some true }

/-- Bind the optional root field `qdrant: QdrantSettings | None = None`
(settings.py:250): an absent key (or explicit null) binds `None`. -/
def bindQdrant (loc : List String) : Option RawValue → VResult (Option QdrantSettings)
  | none => Except.ok none
  | some RawValue.null => Except.ok none
  | some v => Except.map some (bindModel QdrantSettings.validate loc v)

/-- `Settings` (settings.py:239-250): the root aggregate; every group is
required except `qdrant`.  The source field `local` is spelled `local_` here
because `local` is a Lean keyword. -/
structure Settings where
  server : ServerSettings
  data : DataSettings
  ui : UISettings
  llm : LLMSettings
  local_ : LocalSettings
  sagemaker : SagemakerSettings
  openai : OpenAISettings
  vectorstore : VectorstoreSettings
  indexstore : IndexstoreSettings
  documentstore : DocumentstoreSettings
  qdrant : Option QdrantSettings
  deriving Repr, DecidableEq

/-- The `server` component of the root binding. -/
def serverComp (kvs : List (String × RawValue)) : VResult ServerSettings :=
  bindModelReq ServerSettings.validate ["server"] (lookupKey "server" kvs)

/-- The `data` component of the root binding. -/
def dataComp (kvs : List (String × RawValue)) : VResult DataSettings :=
  bindModelReq DataSettings.validate ["data"] (lookupKey "data" kvs)

/-- The `ui` component of the root binding. -/
def uiComp (kvs : List (String × RawValue)) : VResult UISettings :=
  bindModelReq UISettings.validate ["ui"] (lookupKey "ui" kvs)

/-- The `llm` component of the root binding. -/
def llmComp (kvs : List (String × RawValue)) : VResult LLMSettings :=
  bindModelReq LLMSettings.validate ["llm"] (lookupKey "llm" kvs)

/-- The `local` component of the root binding. -/
def localComp (kvs : List (String × RawValue)) : VResult LocalSettings :=
  bindModelReq LocalSettings.validate ["local"] (lookupKey "local" kvs)

/-- The `sagemaker` component of the root binding. -/
def sagemakerComp (kvs : List (String × RawValue)) : VResult SagemakerSettings :=
  bindModelReq SagemakerSettings.validate ["sagemaker"] (lookupKey "sagemaker" kvs)

/-- The `openai` component of the root binding. -/
def openaiComp (kvs : List (String × RawValue)) : VResult OpenAISettings :=
  bindModelReq OpenAISettings.validate ["openai"] (lookupKey "openai" kvs)

/-- The `vectorstore` component of the root binding. -/
def vectorstoreComp (kvs : List (String × RawValue)) : VResult VectorstoreSettings :=
  bindModelReq VectorstoreSettings.validate ["vectorstore"] (lookupKey "vectorstore" kvs)

/-- The `indexstore` component of the root binding. -/
def indexstoreComp (kvs : List (String × RawValue)) : VResult IndexstoreSettings :=
  bindModelReq IndexstoreSettings.validate ["indexstore"] (lookupKey "indexstore" kvs)

/-- The `documentstore` component of the root binding. -/
def documentstoreComp (kvs : List (String × RawValue)) : VResult DocumentstoreSettings :=
  bindModelReq DocumentstoreSettings.validate ["documentstore"] (lookupKey "documentstore" kvs)

/-- The `qdrant` component of the root binding. -/
def qdrantComp (kvs : List (String × RawValue)) : VResult (Option QdrantSettings) :=
  bindQdrant ["qdrant"] (lookupKey "qdrant" kvs)

/-- The root binder `Settings(**merged_raw)`: validates the merged raw
mapping against the whole schema, accumulating every field error. -/
def Settings.validate (kvs : List (String × RawValue)) : VResult Settings :=
  vApp (vApp (vApp (vApp (vApp (vApp (vApp (vApp (vApp (vApp (vApp
    (Except.ok Settings.mk)
    (serverComp kvs))
    (dataComp kvs))
    (uiComp kvs))
    (llmComp kvs))
    (localComp kvs))
    (sagemakerComp kvs))
    (openaiComp kvs))
    (vectorstoreComp kvs))
    (indexstoreComp kvs))
    (documentstoreComp kvs))
    (qdrantComp kvs)

/-! ## The merge engine -/

mutual

/-- Modelled from the spec: the Merge Engine of `settings_loader.py` (the
loader module is not under `src/`; only the schema module is).  Per spec
§4.4, when both the accumulator and the next layer hold a nested mapping at
a key the children are merged recursively; otherwise the next layer's value
replaces the accumulator's wholesale (sequences and scalars included). -/
def deepMerge : RawValue → RawValue → RawValue
  | RawValue.map xs, RawValue.map ys =>
    RawValue.map (mergeEntries xs ys ++ ys.filter fun p => (lookupKey p.1 xs).isNone)
  | _, b => b

/-- Modelled from the spec: one pass over the accumulator's entries — a key
also present in the next layer takes the merged value, a key present only
in the accumulator is preserved untouched. -/
def mergeEntries : List (String × RawValue) → List (String × RawValue) →
    List (String × RawValue)
  | [], _ => []
  | (k, v) :: rest, ys =>
    (k, match lookupKey k ys with
        | none => v
        | some w => deepMerge v w) :: mergeEntries rest ys

end

/-- Modelled from the spec: the left-to-right fold of the ordered raw layers
into one merged mapping, starting from an empty accumulator (spec §4.4). -/
def mergeLayers (layers : List RawValue) : RawValue :=
  layers.foldl deepMerge (RawValue.map [])

/-! ## The spec's end-to-end example layers (spec §8) -/

/-- The base layer of the spec's end-to-end example. -/
def exampleBase : RawValue :=
  RawValue.map
    [ ("server", RawValue.map
        [ ("env_name", RawValue.str "prod"), ("port", RawValue.int 8001) ]),
      ("llm", RawValue.map [ ("mode", RawValue.str "mock") ]),
      ("vectorstore", RawValue.map [ ("database", RawValue.str "chroma") ]),
      ("documentstore", RawValue.map [ ("database", RawValue.str "disk") ]),
      ("indexstore", RawValue.map [ ("database", RawValue.str "disk") ]),
      ("data", RawValue.map [ ("local_data_folder", RawValue.str "/data") ]),
      ("ui", RawValue.map
        [ ("enabled", RawValue.bool true), ("path", RawValue.str "/") ]),
      ("local", RawValue.map
        [ ("llm_hf_repo_id", RawValue.str "repo"),
          ("llm_hf_model_file", RawValue.str "model.bin"),
          ("embedding_hf_model_name", RawValue.str "embed") ]),
      ("sagemaker", RawValue.map
        [ ("llm_endpoint_name", RawValue.str "llm-ep"),
          ("embedding_endpoint_name", RawValue.str "embed-ep") ]),
      ("openai", RawValue.map [ ("api_key", RawValue.str "") ]) ]

/-- The overlay profile of the spec's end-to-end example. -/
def exampleOverlay : RawValue :=
  RawValue.map
    [ ("server", RawValue.map [ ("port", RawValue.int 9000) ]),
      ("documentstore", RawValue.map
        [ ("database", RawValue.str "redis"),
          ("redis", RawValue.map
            [ ("host", RawValue.str "myredis"), ("port", RawValue.int 6380) ]) ]) ]

/-- The raw entries of the merged example (`base` overlaid with the profile). -/
def exampleMergedKvs : List (String × RawValue) :=
  match deepMerge exampleBase exampleOverlay with
  | RawValue.map kvs => kvs
  | _ => []

/-- The `Settings` value the merged example binds to. -/
def exampleSettings : Settings :=
  { server :=
      { env_name := "prod", port := 9000, cors := defaultCors,
        basic_auth := defaultBasicAuth, jwt_auth := defaultJwtAuth },
    data := { local_data_folder := "/data" },
    ui := { enabled := true, path := "/" },
    llm := { mode := "mock" },
    local_ :=
      { llm_hf_repo_id := "repo", llm_hf_model_file := "model.bin",
        embedding_hf_model_name := "embed" },
    sagemaker := { llm_endpoint_name := "llm-ep", embedding_endpoint_name := "embed-ep" },
    openai := { api_key := "" },
    vectorstore := { database := "chroma", collection_name := "privateGPT" },
    indexstore :=
      { database := "disk", namespace_ := "private_gpt_index",
        redis := defaultRedis, dynamodb := defaultDynamoDB },
    documentstore :=
      { database := "redis", namespace_ := "private_gpt_documents",
        redis := { host := "myredis", port := 6380 }, dynamodb := defaultDynamoDB },
    qdrant := none }

/-- Whether a binding attempt produced a `Settings` value. -/
def bindingSucceeds (r : VResult Settings) : Bool :=
  match r with
  | Except.ok _ => true
  | Except.error _ => false

/-- The document-store discriminator a binding attempt selected, if any. -/
def boundDocumentstoreDb (r : VResult Settings) : Option String :=
  match r with
  | Except.ok s => some s.documentstore.database
  | Except.error _ => none

/-- The index-store discriminator a binding attempt selected, if any. -/
def boundIndexstoreDb (r : VResult Settings) : Option String :=
  match r with
  | Except.ok s => some s.indexstore.database
  | Except.error _ => none

/-- A raw mapping that supplies the `documentstore` and `indexstore` groups
but omits their `database` discriminator keys. -/
def noDiscriminatorKvs : List (String × RawValue) :=
  ("documentstore", RawValue.map [("namespace", RawValue.str "docs")]) ::
    ("indexstore", RawValue.map []) :: exampleMergedKvs

/-- A component validation that succeeded (used to say "all other required
fields are present" about the sibling groups of the one under study). -/
def groupOk {α : Type} (r : VResult α) : Prop := ∃ v, r = Except.ok v

/-! ## Object identity: allocation and heap model

Pydantic applies a field default by calling the declared `default_factory`,
or `smart_deepcopy`ing the declared literal default; either way every
constructed model instance receives a freshly allocated object, never a
reference shared with another instance.  We make allocation explicit: an
allocator counter hands out object ids, and a heap maps ids to mutable
object contents so that in-place mutation can be expressed. -/

/-- A heap of mutable objects with contents in `α`, keyed by object id. -/
def Heap (α : Type) : Type := Nat → Option α

/-- In-place mutation of the object with id `i`. -/
def heapWrite {α : Type} (h : Heap α) (i : Nat) (v : α) : Heap α :=
  fun j => if j = i then some v else h j

/-- Read the object with id `i`. -/
def heapRead {α : Type} (h : Heap α) (i : Nat) : Option α := h i

/-- The identities and contents of the default sub-objects one
`ServerSettings` construction receives when `cors`, `basic_auth` and
`jwt_auth` are absent from its raw mapping: the `cors` object and its nested
`allow_origins` list, the `basic_auth` object and the `jwt_auth` object. -/
structure ServerDefaultObjs where
  corsId : Nat
  cors : CorsSettings
  corsOriginsId : Nat
  corsOrigins : List String
  basicAuthId : Nat
  basicAuth : BasicAuthSettings
  jwtAuthId : Nat
  jwtAuth : JWTAuthSettings
  deriving Repr, DecidableEq

/-- Allocation-instrumented application of the `ServerSettings` defaults, as
pydantic performs it when the keys are absent: the literal
`CorsSettings(enabled=False)` default (settings.py:92) is `smart_deepcopy`'d
— allocating a fresh `cors` object and a fresh `allow_origins` list — and the
`basic_auth` and `jwt_auth` default factories (settings.py:96, 101) are
called, each constructing a fresh object.  `ctr` is the allocator's next
free id, returned bumped past the four new objects. -/
def allocServerDefaults (ctr : Nat) : ServerDefaultObjs × Nat :=
  (⟨ctr, defaultCors, ctr + 1, [], ctr + 2, defaultBasicAuth, ctr + 3, defaultJwtAuth⟩,
    ctr + 4)

/-! ## The settings accessor

`settings.py` binds `unsafe_settings = load_active_settings()` and
`unsafe_typed_settings = Settings(**unsafe_settings)` at module level
(settings.py:258, 265): the load pipeline runs when the module is first
imported.  `settings()` (settings.py:268-278) returns
`global_injector.get(Settings)`. -/

/-- A reference to a Python object: its identity and its value. -/
structure Obj (α : Type) where
  id : Nat
  val : α
  deriving Repr, DecidableEq

/-- The state of the imported settings module: the module-level
`unsafe_typed_settings` binding (settings.py:265). -/
structure SettingsModule where
  unsafe_typed_settings : Obj Settings
  deriving Repr, DecidableEq

/-- Modelled from the spec: `global_injector.get(Settings)` — the
dependency-injection container (`private_gpt/di.py`, not under `src/`)
resolves the `Settings` type to the process-wide validated singleton, the
module-level `unsafe_typed_settings` instance. -/
def global_injector_get (m : SettingsModule) : Obj Settings :=
  m.unsafe_typed_settings

/-- The convenience function `settings()` (settings.py:268-278): returns
`global_injector.get(Settings)`. -/
def settingsCall (m : SettingsModule) : Obj Settings :=
  global_injector_get m

/-- One access to the validated settings, along either access path:
`true` for the convenience function, `false` for DI resolution. -/
def accessVia (p : Bool) (m : SettingsModule) : Obj Settings :=
  if p then settingsCall m else global_injector_get m

/-! ### Import-time initialization (for the laziness claim)

The model tracks how often the load pipeline ran, how often the settings
were accessed, and the cached module.  Python import semantics: a first
`import` executes the module body — which runs the whole load pipeline
eagerly (settings.py:258, 265) — and caches the module in `sys.modules` on
success; a failed import is not cached, so a later import re-executes the
body.  Accessing the settings first imports the module (if needed), then
reads the cached instance. -/

/-- The per-process loading state: the cached settings module (present only
after a successful import), the number of pipeline runs, and the number of
settings accesses performed so far. -/
structure AccessorState where
  cached : Option Settings
  loadCount : Nat
  accessCount : Nat
  deriving Repr, DecidableEq

/-- The state of a process in which nothing has been imported or accessed. -/
def initState : AccessorState :=
  { cached := none, loadCount := 0, accessCount := 0 }

/-- Events of the accessor model: importing the settings module, and
accessing the settings (via DI or the convenience function). -/
inductive AccessorEvent where
  | importModule
  | access
  deriving Repr, DecidableEq

/-- Importing the settings module.  `outcome` is the per-process result of
running the load pipeline (`Settings(**load_active_settings())`), fixed
because the loader reads the same sources each run.  A cached module is
returned as-is (the body is not re-executed); otherwise the body runs —
counting one pipeline run — and the module is cached only on success. -/
def doImport (outcome : VResult Settings) (s : AccessorState) : AccessorState :=
  match s.cached with
  | some _ => s
  | none =>
    match outcome with
    | Except.ok st =>
      { cached := some st, loadCount := s.loadCount + 1, accessCount := s.accessCount }
    | Except.error _ =>
      { cached := none, loadCount := s.loadCount + 1, accessCount := s.accessCount }

/-- What one access returns (or raises) in a given post-import state: the
cached instance, or — when the import failed — the import error itself. -/
def accessReturn (outcome : VResult Settings) (s : AccessorState) : VResult Settings :=
  match s.cached with
  | some st => Except.ok st
  | none => outcome

/-- Count one performed access. -/
def bumpAccess (s : AccessorState) : AccessorState :=
  { cached := s.cached, loadCount := s.loadCount, accessCount := s.accessCount + 1 }

/-- Run a sequence of events from a state, collecting what each access
returned: an access first imports the module (if needed), records its
return, and counts itself. -/
def runCollect (outcome : VResult Settings) :
    AccessorState → List AccessorEvent → AccessorState × List (VResult Settings)
  | s, [] => (s, [])
  | s, AccessorEvent.importModule :: rest => runCollect outcome (doImport outcome s) rest
  | s, AccessorEvent.access :: rest =>
    ((runCollect outcome (bumpAccess (doImport outcome s)) rest).1,
      accessReturn outcome (doImport outcome s) ::
        (runCollect outcome (bumpAccess (doImport outcome s)) rest).2)

/-! ## Lemmas about the applicative validator -/

theorem vApp_ok_ok {α β : Type} (f : α → β) (a : α) :
    vApp (Except.ok f) (Except.ok a) = Except.ok (f a) := rfl

/-- If the argument component failed, the combined validation fails and
keeps every error the argument reported. -/
theorem vApp_error_arg {α β : Type} (f : VResult (α → β)) {a : VResult α}
    {es : List FieldError} (ha : a = Except.error es) {e : FieldError} (he : e ∈ es) :
    ∃ es', vApp f a = Except.error es' ∧ e ∈ es' := by
  subst ha
  cases f with
  | ok g => exact ⟨es, rfl, he⟩
  | error es₀ => exact ⟨es₀ ++ es, rfl, List.mem_append_right _ he⟩

/-- If the function-side component failed, the combined validation fails and
keeps every error it reported. -/
theorem vApp_error_fn {α β : Type} {f : VResult (α → β)} (a : VResult α)
    {es : List FieldError} (hf : f = Except.error es) {e : FieldError} (he : e ∈ es) :
    ∃ es', vApp f a = Except.error es' ∧ e ∈ es' := by
  subst hf
  cases a with
  | ok v => exact ⟨es, rfl, he⟩
  | error es₀ => exact ⟨es ++ es₀, rfl, List.mem_append_left _ he⟩

/-- A combined validation succeeds only if both components succeeded. -/
theorem vApp_ok_inv {α β : Type} {f : VResult (α → β)} {a : VResult α} {b : β}
    (h : vApp f a = Except.ok b) :
    ∃ g v, f = Except.ok g ∧ a = Except.ok v ∧ b = g v := by
  cases f with
  | ok g =>
    cases a with
    | ok v =>
      simp only [vApp, Except.ok.injEq] at h
      exact ⟨g, v, rfl, rfl, h.symm⟩
    | error es => simp [vApp] at h
  | error es => cases a <;> simp [vApp] at h

/-- If every component of the root binding succeeded, the whole binding
succeeds with the corresponding record. -/
theorem settings_validate_ok_of {kvs : List (String × RawValue)}
    {v1 : ServerSettings} {v2 : DataSettings} {v3 : UISettings} {v4 : LLMSettings}
    {v5 : LocalSettings} {v6 : SagemakerSettings} {v7 : OpenAISettings}
    {v8 : VectorstoreSettings} {v9 : IndexstoreSettings} {v10 : DocumentstoreSettings}
    {v11 : Option QdrantSettings}
    (h1 : serverComp kvs = Except.ok v1) (h2 : dataComp kvs = Except.ok v2)
    (h3 : uiComp kvs = Except.ok v3) (h4 : llmComp kvs = Except.ok v4)
    (h5 : localComp kvs = Except.ok v5) (h6 : sagemakerComp kvs = Except.ok v6)
    (h7 : openaiComp kvs = Except.ok v7) (h8 : vectorstoreComp kvs = Except.ok v8)
    (h9 : indexstoreComp kvs = Except.ok v9) (h10 : documentstoreComp kvs = Except.ok v10)
    (h11 : qdrantComp kvs = Except.ok v11) :
    Settings.validate kvs = Except.ok ⟨v1, v2, v3, v4, v5, v6, v7, v8, v9, v10, v11⟩ := by
  unfold Settings.validate
  rw [h1, h2, h3, h4, h5, h6, h7, h8, h9, h10, h11]
  rfl

/-- The root binding succeeds only if every component succeeded, each on the
corresponding field of the result. -/
theorem settings_validate_ok_inv {kvs : List (String × RawValue)} {st : Settings}
    (h : Settings.validate kvs = Except.ok st) :
    serverComp kvs = Except.ok st.server ∧ dataComp kvs = Except.ok st.data ∧
    uiComp kvs = Except.ok st.ui ∧ llmComp kvs = Except.ok st.llm ∧
    localComp kvs = Except.ok st.local_ ∧ sagemakerComp kvs = Except.ok st.sagemaker ∧
    openaiComp kvs = Except.ok st.openai ∧
    vectorstoreComp kvs = Except.ok st.vectorstore ∧
    indexstoreComp kvs = Except.ok st.indexstore ∧
    documentstoreComp kvs = Except.ok st.documentstore ∧
    qdrantComp kvs = Except.ok st.qdrant := by
  unfold Settings.validate at h
  obtain ⟨f10, v11, hf10, hc11, hb11⟩ := vApp_ok_inv h
  obtain ⟨f9, v10, hf9, hc10, hb10⟩ := vApp_ok_inv hf10
  obtain ⟨f8, v9, hf8, hc9, hb9⟩ := vApp_ok_inv hf9
  obtain ⟨f7, v8, hf7, hc8, hb8⟩ := vApp_ok_inv hf8
  obtain ⟨f6, v7, hf6, hc7, hb7⟩ := vApp_ok_inv hf7
  obtain ⟨f5, v6, hf5, hc6, hb6⟩ := vApp_ok_inv hf6
  obtain ⟨f4, v5, hf4, hc5, hb5⟩ := vApp_ok_inv hf5
  obtain ⟨f3, v4, hf3, hc4, hb4⟩ := vApp_ok_inv hf4
  obtain ⟨f2, v3, hf2, hc3, hb3⟩ := vApp_ok_inv hf3
  obtain ⟨f1, v2, hf1, hc2, hb2⟩ := vApp_ok_inv hf2
  obtain ⟨f0, v1, hf0, hc1, hb1⟩ := vApp_ok_inv hf1
  injection hf0 with hg
  subst hg
  subst hb1; subst hb2; subst hb3; subst hb4; subst hb5; subst hb6
  subst hb7; subst hb8; subst hb9; subst hb10; subst hb11
  exact ⟨hc1, hc2, hc3, hc4, hc5, hc6, hc7, hc8, hc9, hc10, hc11⟩

/-- A failure of the `server` component propagates: the root binding fails,
keeping the component's errors. -/
theorem settings_validate_error_server {kvs : List (String × RawValue)}
    {es : List FieldError} {e : FieldError}
    (h : serverComp kvs = Except.error es) (he : e ∈ es) :
    ∃ es', Settings.validate kvs = Except.error es' ∧ e ∈ es' := by
  obtain ⟨es1, h1, m1⟩ := vApp_error_arg (Except.ok Settings.mk) h he
  obtain ⟨es2, h2, m2⟩ := vApp_error_fn (dataComp kvs) h1 m1
  obtain ⟨es3, h3, m3⟩ := vApp_error_fn (uiComp kvs) h2 m2
  obtain ⟨es4, h4, m4⟩ := vApp_error_fn (llmComp kvs) h3 m3
  obtain ⟨es5, h5, m5⟩ := vApp_error_fn (localComp kvs) h4 m4
  obtain ⟨es6, h6, m6⟩ := vApp_error_fn (sagemakerComp kvs) h5 m5
  obtain ⟨es7, h7, m7⟩ := vApp_error_fn (openaiComp kvs) h6 m6
  obtain ⟨es8, h8, m8⟩ := vApp_error_fn (vectorstoreComp kvs) h7 m7
  obtain ⟨es9, h9, m9⟩ := vApp_error_fn (indexstoreComp kvs) h8 m8
  obtain ⟨es10, h10, m10⟩ := vApp_error_fn (documentstoreComp kvs) h9 m9
  obtain ⟨es11, h11, m11⟩ := vApp_error_fn (qdrantComp kvs) h10 m10
  exact ⟨es11, h11, m11⟩

/-- A failure of the `data` component propagates to the root binding. -/
theorem settings_validate_error_data {kvs : List (String × RawValue)}
    {es : List FieldError} {e : FieldError}
    (h : dataComp kvs = Except.error es) (he : e ∈ es) :
    ∃ es', Settings.validate kvs = Except.error es' ∧ e ∈ es' := by
  obtain ⟨es2, h2, m2⟩ :=
    vApp_error_arg (vApp (Except.ok Settings.mk) (serverComp kvs)) h he
  obtain ⟨es3, h3, m3⟩ := vApp_error_fn (uiComp kvs) h2 m2
  obtain ⟨es4, h4, m4⟩ := vApp_error_fn (llmComp kvs) h3 m3
  obtain ⟨es5, h5, m5⟩ := vApp_error_fn (localComp kvs) h4 m4
  obtain ⟨es6, h6, m6⟩ := vApp_error_fn (sagemakerComp kvs) h5 m5
  obtain ⟨es7, h7, m7⟩ := vApp_error_fn (openaiComp kvs) h6 m6
  obtain ⟨es8, h8, m8⟩ := vApp_error_fn (vectorstoreComp kvs) h7 m7
  obtain ⟨es9, h9, m9⟩ := vApp_error_fn (indexstoreComp kvs) h8 m8
  obtain ⟨es10, h10, m10⟩ := vApp_error_fn (documentstoreComp kvs) h9 m9
  obtain ⟨es11, h11, m11⟩ := vApp_error_fn (qdrantComp kvs) h10 m10
  exact ⟨es11, h11, m11⟩

/-- A failure of the `llm` component propagates to the root binding. -/
theorem settings_validate_error_llm {kvs : List (String × RawValue)}
    {es : List FieldError} {e : FieldError}
    (h : llmComp kvs = Except.error es) (he : e ∈ es) :
    ∃ es', Settings.validate kvs = Except.error es' ∧ e ∈ es' := by
  obtain ⟨es4, h4, m4⟩ :=
    vApp_error_arg
      (vApp (vApp (vApp (Except.ok Settings.mk) (serverComp kvs)) (dataComp kvs))
        (uiComp kvs)) h he
  obtain ⟨es5, h5, m5⟩ := vApp_error_fn (localComp kvs) h4 m4
  obtain ⟨es6, h6, m6⟩ := vApp_error_fn (sagemakerComp kvs) h5 m5
  obtain ⟨es7, h7, m7⟩ := vApp_error_fn (openaiComp kvs) h6 m6
  obtain ⟨es8, h8, m8⟩ := vApp_error_fn (vectorstoreComp kvs) h7 m7
  obtain ⟨es9, h9, m9⟩ := vApp_error_fn (indexstoreComp kvs) h8 m8
  obtain ⟨es10, h10, m10⟩ := vApp_error_fn (documentstoreComp kvs) h9 m9
  obtain ⟨es11, h11, m11⟩ := vApp_error_fn (qdrantComp kvs) h10 m10
  exact ⟨es11, h11, m11⟩

/-- A failure of the `openai` component propagates to the root binding. -/
theorem settings_validate_error_openai {kvs : List (String × RawValue)}
    {es : List FieldError} {e : FieldError}
    (h : openaiComp kvs = Except.error es) (he : e ∈ es) :
    ∃ es', Settings.validate kvs = Except.error es' ∧ e ∈ es' := by
  obtain ⟨es7, h7, m7⟩ :=
    vApp_error_arg
      (vApp (vApp (vApp (vApp (vApp (vApp (Except.ok Settings.mk) (serverComp kvs))
        (dataComp kvs)) (uiComp kvs)) (llmComp kvs)) (localComp kvs))
        (sagemakerComp kvs)) h he
  obtain ⟨es8, h8, m8⟩ := vApp_error_fn (vectorstoreComp kvs) h7 m7
  obtain ⟨es9, h9, m9⟩ := vApp_error_fn (indexstoreComp kvs) h8 m8
  obtain ⟨es10, h10, m10⟩ := vApp_error_fn (documentstoreComp kvs) h9 m9
  obtain ⟨es11, h11, m11⟩ := vApp_error_fn (qdrantComp kvs) h10 m10
  exact ⟨es11, h11, m11⟩

/-! ## C3 -/

/-- C3: binding the spec's end-to-end merged example (the base layer
overlaid with the `{server: {port: 9000}, documentstore: ...}` profile)
yields a `Settings` value with `server.port == 9000`,
`server.env_name == "prod"`, `documentstore.database == "redis"`,
`documentstore.redis.host == "myredis"`, `documentstore.redis.port == 6380`,
and `documentstore.namespace` at its schema default
`"private_gpt_documents"`. -/
theorem merged_example_binds_as_specified :
    ∃ s, Settings.validate exampleMergedKvs = Except.ok s ∧
      s.server.port = 9000 ∧ s.server.env_name = "prod" ∧
      s.documentstore.database = "redis" ∧ s.documentstore.redis.host = "myredis" ∧
      s.documentstore.redis.port = 6380 ∧
      s.documentstore.namespace_ = "private_gpt_documents" :=
  ⟨_, rfl, rfl, rfl, rfl, rfl, rfl, rfl⟩

/-! ## C2 -/

/-- C2: a raw mapping whose `server` group lacks `env_name`, whose `data`
group lacks `local_data_folder`, or whose `openai` group lacks `api_key` (a
required field with no default in each case) fails binding with a structured
error identifying that field's path, and no `Settings` value is produced:
the single failure aborts construction of the whole root. -/
theorem required_field_failure_aborts_binding :
    (∀ kvs skvs, lookupKey "server" kvs = some (RawValue.map skvs) →
      lookupKey "env_name" skvs = none →
      ∃ es, Settings.validate kvs = Except.error es ∧
        FieldError.mk ["server", "env_name"] requiredMsg ∈ es ∧
        ∀ st, Settings.validate kvs ≠ Except.ok st) ∧
    (∀ kvs dkvs, lookupKey "data" kvs = some (RawValue.map dkvs) →
      lookupKey "local_data_folder" dkvs = none →
      ∃ es, Settings.validate kvs = Except.error es ∧
        FieldError.mk ["data", "local_data_folder"] requiredMsg ∈ es ∧
        ∀ st, Settings.validate kvs ≠ Except.ok st) ∧
    (∀ kvs okvs, lookupKey "openai" kvs = some (RawValue.map okvs) →
      lookupKey "api_key" okvs = none →
      ∃ es, Settings.validate kvs = Except.error es ∧
        FieldError.mk ["openai", "api_key"] requiredMsg ∈ es ∧
        ∀ st, Settings.validate kvs ≠ Except.ok st) := by
  refine ⟨?_, ?_, ?_⟩
  · intro kvs skvs hsv h2
    have hb : bindStr (["server"] ++ ["env_name"]) (lookupKey "env_name" skvs) =
        Except.error [FieldError.mk ["server", "env_name"] requiredMsg] := by
      rw [h2]; rfl
    obtain ⟨es1, h1', m1⟩ :=
      vApp_error_arg (Except.ok ServerSettings.mk) hb (List.mem_singleton.mpr rfl)
    obtain ⟨es2, h2', m2⟩ :=
      vApp_error_fn (bindInt (["server"] ++ ["port"]) (lookupKey "port" skvs)) h1' m1
    obtain ⟨es3, h3', m3⟩ :=
      vApp_error_fn (bindModelD CorsSettings.validate defaultCors (["server"] ++ ["cors"])
        (lookupKey "cors" skvs)) h2' m2
    obtain ⟨es4, h4', m4⟩ :=
      vApp_error_fn (bindModelD BasicAuthSettings.validate defaultBasicAuth
        (["server"] ++ ["basic_auth"]) (lookupKey "basic_auth" skvs)) h3' m3
    obtain ⟨es5, h5', m5⟩ :=
      vApp_error_fn (bindModelD JWTAuthSettings.validate defaultJwtAuth
        (["server"] ++ ["jwt_auth"]) (lookupKey "jwt_auth" skvs)) h4' m4
    have hcomp : serverComp kvs = Except.error es5 := by
      unfold serverComp
      rw [hsv]
      exact h5'
    obtain ⟨es', hv, hm⟩ := settings_validate_error_server hcomp m5
    refine ⟨es', hv, hm, fun st hst => ?_⟩
    rw [hv] at hst
    exact Except.noConfusion hst
  · intro kvs dkvs hdv h2
    have hcomp : dataComp kvs =
        Except.error [FieldError.mk ["data", "local_data_folder"] requiredMsg] := by
      unfold dataComp
      rw [hdv]
      show Except.map DataSettings.mk
        (bindStr (["data"] ++ ["local_data_folder"])
          (lookupKey "local_data_folder" dkvs)) = _
      rw [h2]; rfl
    obtain ⟨es', hv, hm⟩ :=
      settings_validate_error_data hcomp (List.mem_singleton.mpr rfl)
    refine ⟨es', hv, hm, fun st hst => ?_⟩
    rw [hv] at hst
    exact Except.noConfusion hst
  · intro kvs okvs hov h2
    have hcomp : openaiComp kvs =
        Except.error [FieldError.mk ["openai", "api_key"] requiredMsg] := by
      unfold openaiComp
      rw [hov]
      show Except.map OpenAISettings.mk
        (bindStr (["openai"] ++ ["api_key"]) (lookupKey "api_key" okvs)) = _
      rw [h2]; rfl
    obtain ⟨es', hv, hm⟩ :=
      settings_validate_error_openai hcomp (List.mem_singleton.mpr rfl)
    refine ⟨es', hv, hm, fun st hst => ?_⟩
    rw [hv] at hst
    exact Except.noConfusion hst

/-- Witness for C2 at a concrete input: a raw mapping whose `server` group
holds only `port` fails binding with the `server.env_name` required-field
error. -/
theorem required_field_failure_aborts_binding_witness :
    ∃ es, Settings.validate [("server", RawValue.map [("port", RawValue.int 8001)])] =
        Except.error es ∧
      FieldError.mk ["server", "env_name"] requiredMsg ∈ es := by
  obtain ⟨es, hv, hm, _⟩ :=
    required_field_failure_aborts_binding.1
      [("server", RawValue.map [("port", RawValue.int 8001)])]
      [("port", RawValue.int 8001)] rfl rfl
  exact ⟨es, hv, hm⟩

/-! ## C1 -/

/-- C1: binding a merged raw mapping whose `llm.mode` is a string outside
`{local, openai, sagemaker, mock}` fails with an error naming the field path
and the allowed set; binding with `llm.mode` equal to any of the four values
succeeds — whatever else the mapping populates — provided every other
required group binds (`st.llm.mode` then carries the chosen value). -/
theorem llm_mode_literal_enforcement :
    (∀ kvs lkvs s, lookupKey "llm" kvs = some (RawValue.map lkvs) →
      lookupKey "mode" lkvs = some (RawValue.str s) →
      s ∉ llmModes →
      ∃ es, Settings.validate kvs = Except.error es ∧
        FieldError.mk ["llm", "mode"] (literalMsg llmModes) ∈ es) ∧
    (∀ kvs lkvs s, lookupKey "llm" kvs = some (RawValue.map lkvs) →
      lookupKey "mode" lkvs = some (RawValue.str s) →
      s ∈ llmModes →
      groupOk (serverComp kvs) → groupOk (dataComp kvs) → groupOk (uiComp kvs) →
      groupOk (localComp kvs) → groupOk (sagemakerComp kvs) →
      groupOk (openaiComp kvs) → groupOk (vectorstoreComp kvs) →
      groupOk (indexstoreComp kvs) → groupOk (documentstoreComp kvs) →
      groupOk (qdrantComp kvs) →
      ∃ st, Settings.validate kvs = Except.ok st ∧ st.llm.mode = s) := by
  constructor
  · intro kvs lkvs s hl hm hns
    have hcomp : llmComp kvs =
        Except.error [FieldError.mk ["llm", "mode"] (literalMsg llmModes)] := by
      unfold llmComp
      rw [hl]
      show Except.map LLMSettings.mk
        (bindLiteral llmModes (["llm"] ++ ["mode"]) (lookupKey "mode" lkvs)) = _
      rw [hm]
      simp [bindLiteral, hns, Except.map]
    exact settings_validate_error_llm hcomp (List.mem_singleton.mpr rfl)
  · intro kvs lkvs s hl hm hmem ho1 ho2 ho3 ho5 ho6 ho7 ho8 ho9 ho10 ho11
    obtain ⟨v1, h1⟩ := ho1
    obtain ⟨v2, h2⟩ := ho2
    obtain ⟨v3, h3⟩ := ho3
    obtain ⟨v5, h5⟩ := ho5
    obtain ⟨v6, h6⟩ := ho6
    obtain ⟨v7, h7⟩ := ho7
    obtain ⟨v8, h8⟩ := ho8
    obtain ⟨v9, h9⟩ := ho9
    obtain ⟨v10, h10⟩ := ho10
    obtain ⟨v11, h11⟩ := ho11
    have hllm : llmComp kvs = Except.ok ⟨s⟩ := by
      unfold llmComp
      rw [hl]
      show Except.map LLMSettings.mk
        (bindLiteral llmModes (["llm"] ++ ["mode"]) (lookupKey "mode" lkvs)) = _
      rw [hm]
      simp [bindLiteral, hmem, Except.map]
    exact ⟨_, settings_validate_ok_of h1 h2 h3 hllm h5 h6 h7 h8 h9 h10 h11, rfl⟩

/-- Witness for C1 at concrete inputs: `llm.mode = "fancy"` on top of the
example mapping fails with the path-qualified enum error, and
`llm.mode = "mock"` in the example mapping binds with that mode. -/
theorem llm_mode_literal_enforcement_witness :
    (∃ es, Settings.validate
        (("llm", RawValue.map [("mode", RawValue.str "fancy")]) :: exampleMergedKvs) =
          Except.error es ∧
      FieldError.mk ["llm", "mode"] (literalMsg llmModes) ∈ es) ∧
    (∃ st, Settings.validate exampleMergedKvs = Except.ok st ∧ st.llm.mode = "mock") :=
  ⟨llm_mode_literal_enforcement.1 _ _ "fancy" rfl rfl (by decide),
   llm_mode_literal_enforcement.2 _ _ "mock" rfl rfl (by decide)
     ⟨_, rfl⟩ ⟨_, rfl⟩ ⟨_, rfl⟩ ⟨_, rfl⟩ ⟨_, rfl⟩ ⟨_, rfl⟩ ⟨_, rfl⟩ ⟨_, rfl⟩
     ⟨_, rfl⟩ ⟨_, rfl⟩⟩

/-! ## C8 -/

/-- C8: `qdrant` is the only optional top-level group — a raw mapping
omitting the key binds (given the other groups bind) with `qdrant = none`;
the empty `qdrant` mapping binds to the all-default `QdrantSettings` (`port`
6333, `grpc_port` 6334, `prefer_grpc` false,
`force_disable_check_same_thread` true, all others `None`), and a `Settings`
bound from a mapping with an empty `qdrant` group carries exactly those
defaults. -/
theorem qdrant_optional_group :
    (∀ kvs, lookupKey "qdrant" kvs = none →
      groupOk (serverComp kvs) → groupOk (dataComp kvs) → groupOk (uiComp kvs) →
      groupOk (llmComp kvs) → groupOk (localComp kvs) → groupOk (sagemakerComp kvs) →
      groupOk (openaiComp kvs) → groupOk (vectorstoreComp kvs) →
      groupOk (indexstoreComp kvs) → groupOk (documentstoreComp kvs) →
      ∃ st, Settings.validate kvs = Except.ok st ∧ st.qdrant = none) ∧
    QdrantSettings.validate ["qdrant"] [] = Except.ok defaultQdrant ∧
    defaultQdrant.port = some 6333 ∧ defaultQdrant.grpc_port = some 6334 ∧
    defaultQdrant.prefer_grpc = some false ∧
    defaultQdrant.force_disable_check_same_thread = some true ∧
    defaultQdrant.location = none ∧ defaultQdrant.url = none ∧
    defaultQdrant.https = none ∧ defaultQdrant.api_key = none ∧
    defaultQdrant.prefix_ = none ∧ defaultQdrant.timeout = none ∧
    defaultQdrant.host = none ∧ defaultQdrant.path = none ∧
    (∀ kvs st, lookupKey "qdrant" kvs = some (RawValue.map []) →
      Settings.validate kvs = Except.ok st → st.qdrant = some defaultQdrant) := by
  refine ⟨?_, rfl, rfl, rfl, rfl, rfl, rfl, rfl, rfl, rfl, rfl, rfl, rfl, rfl, ?_⟩
  · intro kvs hq ho1 ho2 ho3 ho4 ho5 ho6 ho7 ho8 ho9 ho10
    obtain ⟨v1, h1⟩ := ho1
    obtain ⟨v2, h2⟩ := ho2
    obtain ⟨v3, h3⟩ := ho3
    obtain ⟨v4, h4⟩ := ho4
    obtain ⟨v5, h5⟩ := ho5
    obtain ⟨v6, h6⟩ := ho6
    obtain ⟨v7, h7⟩ := ho7
    obtain ⟨v8, h8⟩ := ho8
    obtain ⟨v9, h9⟩ := ho9
    obtain ⟨v10, h10⟩ := ho10
    have hqc : qdrantComp kvs = Except.ok none := by
      unfold qdrantComp
      rw [hq]
      rfl
    exact ⟨_, settings_validate_ok_of h1 h2 h3 h4 h5 h6 h7 h8 h9 h10 hqc, rfl⟩
  · intro kvs st hq hv
    have h := (settings_validate_ok_inv hv).2.2.2.2.2.2.2.2.2.2
    have hc : qdrantComp kvs = Except.ok (some defaultQdrant) := by
      unfold qdrantComp
      rw [hq]
      rfl
    rw [hc] at h
    injection h with h'
    exact h'.symm

/-- Witness for C8 at concrete inputs: the example mapping (no `qdrant` key)
binds with `qdrant = none`, and adding an empty `qdrant` group binds it to
the all-default `QdrantSettings`. -/
theorem qdrant_optional_group_witness :
    (∃ st, Settings.validate exampleMergedKvs = Except.ok st ∧ st.qdrant = none) ∧
    (∃ st, Settings.validate (("qdrant", RawValue.map []) :: exampleMergedKvs) =
        Except.ok st ∧ st.qdrant = some defaultQdrant) :=
  ⟨qdrant_optional_group.1 exampleMergedKvs rfl ⟨_, rfl⟩ ⟨_, rfl⟩ ⟨_, rfl⟩ ⟨_, rfl⟩
     ⟨_, rfl⟩ ⟨_, rfl⟩ ⟨_, rfl⟩ ⟨_, rfl⟩ ⟨_, rfl⟩ ⟨_, rfl⟩,
   ⟨_, rfl, qdrant_optional_group.2.2.2.2.2.2.2.2.2.2.2.2.2.2
     (("qdrant", RawValue.map []) :: exampleMergedKvs) _ rfl rfl⟩⟩

/-! ## C9 -/

/-- A successful documentstore binding whose raw group lacks the `database`
key selected the declared default `"disk"`. -/
theorem documentstore_validate_database_none {loc : List String}
    {dkvs : List (String × RawValue)} {v : DocumentstoreSettings}
    (h2 : lookupKey "database" dkvs = none)
    (hv : DocumentstoreSettings.validate loc dkvs = Except.ok v) : v.database = "disk" := by
  unfold DocumentstoreSettings.validate at hv
  obtain ⟨f3, v4, hf3, hc4, hb4⟩ := vApp_ok_inv hv
  obtain ⟨f2, v3, hf2, hc3, hb3⟩ := vApp_ok_inv hf3
  obtain ⟨f1, v2, hf1, hc2, hb2⟩ := vApp_ok_inv hf2
  obtain ⟨f0, v1, hf0, hc1, hb1⟩ := vApp_ok_inv hf1
  injection hf0 with hg
  subst hg; subst hb1; subst hb2; subst hb3; subst hb4
  rw [h2] at hc1
  simp only [bindLiteralD, Except.ok.injEq] at hc1
  subst hc1
  rfl

/-- A successful indexstore binding whose raw group lacks the `database` key
selected the declared default `"disk"`. -/
theorem indexstore_validate_database_none {loc : List String}
    {ikvs : List (String × RawValue)} {v : IndexstoreSettings}
    (h2 : lookupKey "database" ikvs = none)
    (hv : IndexstoreSettings.validate loc ikvs = Except.ok v) : v.database = "disk" := by
  unfold IndexstoreSettings.validate at hv
  obtain ⟨f3, v4, hf3, hc4, hb4⟩ := vApp_ok_inv hv
  obtain ⟨f2, v3, hf2, hc3, hb3⟩ := vApp_ok_inv hf3
  obtain ⟨f1, v2, hf1, hc2, hb2⟩ := vApp_ok_inv hf2
  obtain ⟨f0, v1, hf0, hc1, hb1⟩ := vApp_ok_inv hf1
  injection hf0 with hg
  subst hg; subst hb1; subst hb2; subst hb3; subst hb4
  rw [h2] at hc1
  simp only [bindLiteralD, Except.ok.injEq] at hc1
  subst hc1
  rfl

/-- Counterexample to C9 as stated: a merged raw mapping that supplies the
`documentstore` and `indexstore` groups without a `database` key binds
successfully — it does not fail — silently selecting the `"disk"` backend. -/
theorem store_discriminator_required_counterexample :
    bindingSucceeds (Settings.validate noDiscriminatorKvs) = true ∧
    boundDocumentstoreDb (Settings.validate noDiscriminatorKvs) = some "disk" ∧
    boundIndexstoreDb (Settings.validate noDiscriminatorKvs) = some "disk" :=
  ⟨rfl, rfl, rfl⟩

/-- C9 amended: the document-store and index-store `database` discriminators
are not required — each is declared with default `"disk"` — so a merged raw
mapping that supplies those groups without a `database` key binds
successfully and selects the disk backend. -/
theorem store_discriminator_defaults_to_disk :
    (∀ kvs dkvs st, lookupKey "documentstore" kvs = some (RawValue.map dkvs) →
      lookupKey "database" dkvs = none →
      Settings.validate kvs = Except.ok st → st.documentstore.database = "disk") ∧
    (∀ kvs ikvs st, lookupKey "indexstore" kvs = some (RawValue.map ikvs) →
      lookupKey "database" ikvs = none →
      Settings.validate kvs = Except.ok st → st.indexstore.database = "disk") := by
  constructor
  · intro kvs dkvs st h1 h2 hv
    have hcomp := (settings_validate_ok_inv hv).2.2.2.2.2.2.2.2.2.1
    have hval : DocumentstoreSettings.validate ["documentstore"] dkvs =
        Except.ok st.documentstore := by
      unfold documentstoreComp at hcomp
      rw [h1] at hcomp
      exact hcomp
    exact documentstore_validate_database_none h2 hval
  · intro kvs ikvs st h1 h2 hv
    have hcomp := (settings_validate_ok_inv hv).2.2.2.2.2.2.2.2.1
    have hval : IndexstoreSettings.validate ["indexstore"] ikvs =
        Except.ok st.indexstore := by
      unfold indexstoreComp at hcomp
      rw [h1] at hcomp
      exact hcomp
    exact indexstore_validate_database_none h2 hval

/-- Witness for the amended C9 at the concrete discriminator-free mapping. -/
theorem store_discriminator_defaults_to_disk_witness :
    ∃ st, Settings.validate noDiscriminatorKvs = Except.ok st ∧
      st.documentstore.database = "disk" ∧ st.indexstore.database = "disk" :=
  ⟨_, rfl,
   store_discriminator_defaults_to_disk.1 noDiscriminatorKvs _ _ rfl rfl rfl,
   store_discriminator_defaults_to_disk.2 noDiscriminatorKvs _ _ rfl rfl rfl⟩

/-! ## C10 -/

/-- A successful server binding determines its `cors` component. -/
theorem server_validate_cors {loc : List String} {skvs : List (String × RawValue)}
    {v : ServerSettings} (hv : ServerSettings.validate loc skvs = Except.ok v) :
    bindModelD CorsSettings.validate defaultCors (loc ++ ["cors"])
      (lookupKey "cors" skvs) = Except.ok v.cors := by
  unfold ServerSettings.validate at hv
  obtain ⟨f4, v5, hf4, hc5, hb5⟩ := vApp_ok_inv hv
  obtain ⟨f3, v4, hf3, hc4, hb4⟩ := vApp_ok_inv hf4
  obtain ⟨f2, v3, hf2, hc3, hb3⟩ := vApp_ok_inv hf3
  obtain ⟨f1, v2, hf1, hc2, hb2⟩ := vApp_ok_inv hf2
  obtain ⟨f0, v1, hf0, hc1, hb1⟩ := vApp_ok_inv hf1
  injection hf0 with hg
  subst hg; subst hb1; subst hb2; subst hb3; subst hb4; subst hb5
  exact hc3

/-- A successful CORS binding whose raw group lacks `allow_origin_regex`
bound that field to `None`. -/
theorem cors_validate_regex_none {loc : List String} {ckvs : List (String × RawValue)}
    {v : CorsSettings} (h : lookupKey "allow_origin_regex" ckvs = none)
    (hv : CorsSettings.validate loc ckvs = Except.ok v) : v.allow_origin_regex = none := by
  unfold CorsSettings.validate at hv
  obtain ⟨f5, v6, hf5, hc6, hb6⟩ := vApp_ok_inv hv
  obtain ⟨f4, v5, hf4, hc5, hb5⟩ := vApp_ok_inv hf5
  obtain ⟨f3, v4, hf3, hc4, hb4⟩ := vApp_ok_inv hf4
  obtain ⟨f2, v3, hf2, hc3, hb3⟩ := vApp_ok_inv hf3
  obtain ⟨f1, v2, hf1, hc2, hb2⟩ := vApp_ok_inv hf2
  obtain ⟨f0, v1, hf0, hc1, hb1⟩ := vApp_ok_inv hf1
  injection hf0 with hg
  subst hg; subst hb1; subst hb2; subst hb3; subst hb4; subst hb5; subst hb6
  rw [h] at hc4
  simp only [bindStrListNoneD, Except.ok.injEq] at hc4
  subst hc4
  rfl

/-- C10: a `Settings` bound from a raw mapping that omits
`server.cors.allow_origin_regex` — whether the `cors` group is present
without the key, or absent entirely — carries `allow_origin_regex = None`,
not an empty list, despite the field's declared `list[str]` type. -/
theorem allow_origin_regex_binds_none :
    (∀ kvs skvs ckvs st, lookupKey "server" kvs = some (RawValue.map skvs) →
      lookupKey "cors" skvs = some (RawValue.map ckvs) →
      lookupKey "allow_origin_regex" ckvs = none →
      Settings.validate kvs = Except.ok st →
      st.server.cors.allow_origin_regex = none ∧
        st.server.cors.allow_origin_regex ≠ some []) ∧
    (∀ kvs skvs st, lookupKey "server" kvs = some (RawValue.map skvs) →
      lookupKey "cors" skvs = none →
      Settings.validate kvs = Except.ok st →
      st.server.cors.allow_origin_regex = none ∧
        st.server.cors.allow_origin_regex ≠ some []) := by
  constructor
  · intro kvs skvs ckvs st h1 h2 h3 hv
    have hcomp := (settings_validate_ok_inv hv).1
    have hval : ServerSettings.validate ["server"] skvs = Except.ok st.server := by
      unfold serverComp at hcomp
      rw [h1] at hcomp
      exact hcomp
    have hcors := server_validate_cors hval
    rw [h2] at hcors
    have hcv : CorsSettings.validate (["server"] ++ ["cors"]) ckvs =
        Except.ok st.server.cors := hcors
    have hn := cors_validate_regex_none h3 hcv
    exact ⟨hn, by rw [hn]; intro hc; exact Option.noConfusion hc⟩
  · intro kvs skvs st h1 h2 hv
    have hcomp := (settings_validate_ok_inv hv).1
    have hval : ServerSettings.validate ["server"] skvs = Except.ok st.server := by
      unfold serverComp at hcomp
      rw [h1] at hcomp
      exact hcomp
    have hcors := server_validate_cors hval
    rw [h2] at hcors
    simp only [bindModelD, Except.ok.injEq] at hcors
    have hn : st.server.cors.allow_origin_regex = none := by
      rw [← hcors]
      rfl
    exact ⟨hn, by rw [hn]; intro hc; exact Option.noConfusion hc⟩

/-- Witness for C10 at a concrete input: the example mapping (whose `server`
group carries no `cors` key) binds with `allow_origin_regex = None`. -/
theorem allow_origin_regex_binds_none_witness :
    ∃ st, Settings.validate exampleMergedKvs = Except.ok st ∧
      st.server.cors.allow_origin_regex = none :=
  ⟨_, rfl,
   (allow_origin_regex_binds_none.2 exampleMergedKvs _ _ rfl rfl rfl).1⟩

/-! ## C4 -/

/-- C4: two independently constructed `Settings` with no explicit
`basic_auth` value each get their `basic_auth` from a fresh call of the
default factory: the two objects have distinct identities but equal content
(`enabled = false`, `secret = "secret-key"`), and mutating one in place
leaves the other unchanged. -/
theorem basic_auth_default_isolation :
    ∀ c : Nat,
      (allocServerDefaults c).1.basicAuthId ≠
        (allocServerDefaults (allocServerDefaults c).2).1.basicAuthId ∧
      (allocServerDefaults c).1.basicAuth =
        (allocServerDefaults (allocServerDefaults c).2).1.basicAuth ∧
      (allocServerDefaults c).1.basicAuth.enabled = false ∧
      (allocServerDefaults c).1.basicAuth.secret = "secret-key" ∧
      ∀ (h : Heap BasicAuthSettings) (v : BasicAuthSettings),
        heapRead (heapWrite h (allocServerDefaults c).1.basicAuthId v)
            (allocServerDefaults (allocServerDefaults c).2).1.basicAuthId =
          heapRead h (allocServerDefaults (allocServerDefaults c).2).1.basicAuthId ∧
        heapRead
            (heapWrite h (allocServerDefaults (allocServerDefaults c).2).1.basicAuthId v)
            (allocServerDefaults c).1.basicAuthId =
          heapRead h (allocServerDefaults c).1.basicAuthId := by
  intro c
  refine ⟨by show c + 2 ≠ c + 4 + 2; omega, rfl, rfl, rfl, ?_⟩
  intro h v
  constructor
  · show (if c + 4 + 2 = c + 2 then some v else h (c + 4 + 2)) = h (c + 4 + 2)
    exact if_neg (by omega)
  · show (if c + 2 = c + 4 + 2 then some v else h (c + 2)) = h (c + 2)
    exact if_neg (by omega)

/-! ## C5 -/

/-- C5: nested defaults are composed by value — across two independent
constructions the `cors` default objects (from a `smart_deepcopy` of the
literal `CorsSettings(enabled=False)` default), their nested `allow_origins`
list defaults (`[]`), and the `jwt_auth` factory objects all have distinct
identities, and mutating one instance's copy (object or list) leaves the
other instance's copy unchanged. -/
theorem nested_default_value_isolation :
    ∀ c : Nat,
      (allocServerDefaults c).1.corsId ≠
        (allocServerDefaults (allocServerDefaults c).2).1.corsId ∧
      (allocServerDefaults c).1.corsOriginsId ≠
        (allocServerDefaults (allocServerDefaults c).2).1.corsOriginsId ∧
      (allocServerDefaults c).1.jwtAuthId ≠
        (allocServerDefaults (allocServerDefaults c).2).1.jwtAuthId ∧
      (allocServerDefaults c).1.cors = defaultCors ∧
      (allocServerDefaults (allocServerDefaults c).2).1.cors = defaultCors ∧
      (allocServerDefaults c).1.corsOrigins = [] ∧
      (allocServerDefaults (allocServerDefaults c).2).1.corsOrigins = [] ∧
      (∀ (h : Heap CorsSettings) (v : CorsSettings),
        heapRead (heapWrite h (allocServerDefaults c).1.corsId v)
            (allocServerDefaults (allocServerDefaults c).2).1.corsId =
          heapRead h (allocServerDefaults (allocServerDefaults c).2).1.corsId) ∧
      ∀ (h : Heap (List String)) (v : List String),
        heapRead (heapWrite h (allocServerDefaults c).1.corsOriginsId v)
            (allocServerDefaults (allocServerDefaults c).2).1.corsOriginsId =
          heapRead h (allocServerDefaults (allocServerDefaults c).2).1.corsOriginsId := by
  intro c
  refine ⟨by show c ≠ c + 4; omega, by show c + 1 ≠ c + 4 + 1; omega,
    by show c + 3 ≠ c + 4 + 3; omega, rfl, rfl, rfl, rfl, ?_, ?_⟩
  · intro h v
    show (if c + 4 = c then some v else h (c + 4)) = h (c + 4)
    exact if_neg (by omega)
  · intro h v
    show (if c + 4 + 1 = c + 1 then some v else h (c + 4 + 1)) = h (c + 4 + 1)
    exact if_neg (by omega)

/-! ## C6 -/

/-- C6: within one process, resolving the settings through the
dependency-injection container and calling the zero-argument `settings()`
function return the same underlying object — identical value and identical
object id — on every access, in any order. -/
theorem accessor_paths_identical :
    ∀ (m : SettingsModule) (p q : Bool),
      accessVia p m = accessVia q m ∧
      (accessVia p m).id = (global_injector_get m).id ∧
      settingsCall m = global_injector_get m := by
  intro m p q
  refine ⟨?_, ?_, rfl⟩
  · cases p <;> cases q <;> rfl
  · cases p <;> rfl

/-! ## C7 -/

/-- From a state whose module is cached with the successfully loaded
settings, no further event re-runs the pipeline, and every access returns
the cached instance. -/
theorem runCollect_cached_ok (stv : Settings) :
    ∀ (events : List AccessorEvent) (s : AccessorState), s.cached = some stv →
      (runCollect (Except.ok stv) s events).1.loadCount = s.loadCount ∧
      ∀ r ∈ (runCollect (Except.ok stv) s events).2, r = Except.ok stv := by
  intro events
  induction events with
  | nil =>
    intro s hs
    refine ⟨rfl, fun r hr => ?_⟩
    simp [runCollect] at hr
  | cons e rest ih =>
    intro s hs
    have hdi : doImport (Except.ok stv) s = s := by
      unfold doImport
      rw [hs]
    cases e with
    | importModule =>
      simp only [runCollect, hdi]
      exact ih s hs
    | access =>
      have hret : accessReturn (Except.ok stv) s = Except.ok stv := by
        unfold accessReturn
        rw [hs]
      obtain ⟨ih1, ih2⟩ := ih (bumpAccess s) hs
      simp only [runCollect, hdi]
      refine ⟨ih1, fun r hr => ?_⟩
      cases hr with
      | head => exact hret
      | tail _ h' => exact ih2 r h'

/-- From a fresh (uncached) state with a successfully loading pipeline, any
event sequence runs the pipeline at most once, and every access returns the
same loaded instance. -/
theorem runCollect_uncached_ok (stv : Settings) :
    ∀ (events : List AccessorEvent) (s : AccessorState), s.cached = none →
      (runCollect (Except.ok stv) s events).1.loadCount ≤ s.loadCount + 1 ∧
      ∀ r ∈ (runCollect (Except.ok stv) s events).2, r = Except.ok stv := by
  intro events s hs
  cases events with
  | nil =>
    refine ⟨Nat.le_succ _, fun r hr => ?_⟩
    simp [runCollect] at hr
  | cons e rest =>
    have hdi : doImport (Except.ok stv) s =
        ⟨some stv, s.loadCount + 1, s.accessCount⟩ := by
      unfold doImport
      rw [hs]
    cases e with
    | importModule =>
      simp only [runCollect, hdi]
      have h := runCollect_cached_ok stv rest ⟨some stv, s.loadCount + 1, s.accessCount⟩ rfl
      exact ⟨le_of_eq h.1, h.2⟩
    | access =>
      simp only [runCollect, hdi]
      have h := runCollect_cached_ok stv rest
        (bumpAccess ⟨some stv, s.loadCount + 1, s.accessCount⟩) rfl
      refine ⟨le_of_eq h.1, fun r hr => ?_⟩
      cases hr with
      | head => rfl
      | tail _ h' => exact h.2 r h'

/-- With a failing pipeline nothing is ever cached, and every access
(re)raises the same load error. -/
theorem runCollect_error_returns (es : List FieldError) :
    ∀ (events : List AccessorEvent) (s : AccessorState), s.cached = none →
      ∀ r ∈ (runCollect (Except.error es) s events).2, r = Except.error es := by
  intro events
  induction events with
  | nil =>
    intro s hs r hr
    simp [runCollect] at hr
  | cons e rest ih =>
    intro s hs
    have hdi : doImport (Except.error es) s =
        ⟨none, s.loadCount + 1, s.accessCount⟩ := by
      unfold doImport
      rw [hs]
    cases e with
    | importModule =>
      simp only [runCollect, hdi]
      exact ih ⟨none, s.loadCount + 1, s.accessCount⟩ rfl
    | access =>
      simp only [runCollect, hdi]
      intro r hr
      cases hr with
      | head => rfl
      | tail _ h' =>
        exact ih (bumpAccess ⟨none, s.loadCount + 1, s.accessCount⟩) rfl r h'

/-- Counterexample to C7 as stated: initialization is not lazy — importing
the settings module runs the full load pipeline once with zero accesses
performed — and a failed load is not cached: a second import re-runs the
pipeline (two loads), instead of re-raising a cached failure without a
duplicate load. -/
theorem settings_load_lazy_counterexample :
    (runCollect (Settings.validate exampleMergedKvs) initState
        [AccessorEvent.importModule]).1.loadCount = 1 ∧
    (runCollect (Settings.validate exampleMergedKvs) initState
        [AccessorEvent.importModule]).1.accessCount = 0 ∧
    (runCollect (Settings.validate []) initState
        [AccessorEvent.importModule, AccessorEvent.importModule]).1.loadCount = 2 :=
  ⟨rfl, rfl, rfl⟩

/-- C7 amended: initialization is eager — the pipeline runs at first import
of the settings module, even if the settings are never accessed.  When the
load succeeds it runs at most once per process and every access returns the
same cached instance; when it fails, the failure is not cached, and every
access raises that same (deterministically recomputed) error. -/
theorem settings_load_eager_at_most_once :
    ∀ (events : List AccessorEvent) (stv : Settings) (es : List FieldError),
      (runCollect (Except.ok stv) initState events).1.loadCount ≤ 1 ∧
      (∀ r ∈ (runCollect (Except.ok stv) initState events).2, r = Except.ok stv) ∧
      (runCollect (Except.ok stv) initState [AccessorEvent.importModule]).1.loadCount = 1 ∧
      (runCollect (Except.ok stv) initState
        [AccessorEvent.importModule]).1.accessCount = 0 ∧
      ∀ r ∈ (runCollect (Except.error es) initState events).2, r = Except.error es := by
  intro events stv es
  have h := runCollect_uncached_ok stv events initState rfl
  exact ⟨h.1, h.2, rfl, rfl, runCollect_error_returns es events initState rfl⟩

/-- Witness for the amended C7 at concrete inputs: one access from a fresh
state loads at most once and returns the loaded example settings; with a
failing pipeline the access raises the load error. -/
theorem settings_load_eager_at_most_once_witness :
    (runCollect (Except.ok exampleSettings) initState
        [AccessorEvent.access]).1.loadCount ≤ 1 ∧
    accessReturn (Except.ok exampleSettings)
        (doImport (Except.ok exampleSettings) initState) = Except.ok exampleSettings ∧
    accessReturn (Except.error [FieldError.mk ["server"] requiredMsg])
        (doImport (Except.error [FieldError.mk ["server"] requiredMsg]) initState) =
      Except.error [FieldError.mk ["server"] requiredMsg] := by
  have h := settings_load_eager_at_most_once [AccessorEvent.access] exampleSettings
    [FieldError.mk ["server"] requiredMsg]
  exact ⟨h.1, h.2.1 _ (List.Mem.head _), h.2.2.2.2 _ (List.Mem.head _)⟩

end PrivateGpt
